import Mathlib

/-!
# Shallow embedding of the multi-user product viewer coordinator (src/server.js)

The server keeps three pieces of mutable state:

* `hostSocketId : string | null`                                (server.js line 110)
* `pendingRequests : { requestId : { timeout, requester } }`    (server.js line 111)
* `hostUploadBuffers : { socketId : part[] }`                   (server.js line 114)

We embed socket ids and request ids as `Nat`; `uuidv4()` is embedded as a
counter `nextId` held in the state (each call yields a fresh value).  JS
objects used as maps become functions `Nat → Option _` / `Nat → List _`
(reads of an absent key give `none`; `hostUploadBuffers` is only ever read
through `|| []` / `if (!buf) buf = []`, so an absent buffer and an empty
buffer are observationally identical and we use `Nat → List Part` with
default `[]`).

A `setTimeout` handle lives exactly as long as its `pendingRequests` entry:
every path that deletes the entry (`release-host`, `deny-host`, requester
disconnect, the timeout body itself) also calls `clearTimeout` on the stored
handle, and a cleared timeout never runs its callback.  The timer firing is
therefore embedded as an event `timerFire requestId` whose effect is the
callback body when the entry is still present and a no-op otherwise.
-/

namespace MPV

/-- One element of a host's upload buffer (server.js lines 137-142):
`{ url, name: req.file.originalname, id: uuidv4(), sender: uploaderId }`. -/
structure Part where
  url : String
  name : String
  id : Nat
  sender : Nat
deriving DecidableEq, Repr

/-- Destination of an emitted socket.io message: `io.emit` (all clients,
sender included), `socket.broadcast.emit` (all but the sender), or
`io.to(sid).emit` (one connection). -/
inductive Dest where
  | all : Dest
  | allExcept : Nat → Dest
  | to : Nat → Dest
deriving DecidableEq, Repr

/-- The messages the server emits over socket.io. -/
inductive Msg where
  | hostChanged : Option Nat → Msg
  | hostTransferRequest : Nat → Nat → Msg
  | transferDenied : Nat → Msg
  | modelTransform : Nat → Msg
  | cameraUpdate : Nat → Msg
  | productUploadComplete : List Part → Nat → Msg
  | hostPointerToggle : Bool → Msg
  | hostPointerUpdate : Nat → Msg
deriving DecidableEq, Repr

/-- An emitted message together with its destination. -/
abbrev Output : Type := Dest × Msg

/-- The coordinator's global mutable state (server.js lines 110-114), plus
the uuid counter `nextId`. -/
structure ServerState where
  hostSocketId : Option Nat
  pendingRequests : Nat → Option Nat
  hostUploadBuffers : Nat → List Part
  nextId : Nat

/-- The state at process start: no host, no pending requests, no buffers. -/
def initState : ServerState :=
  { hostSocketId := none
    pendingRequests := fun _ => none
    hostUploadBuffers := fun _ => []
    nextId := 0 }

/-- The inbound socket events handled in `io.on('connection', ...)`
(server.js lines 152-251), plus `timerFire`, the delayed callback scheduled
by `setTimeout` in the `request-host` handler (lines 170-175).  Each event
carries `sid`, the `socket.id` of the connection it arrived on. -/
inductive Event where
  | registerHost : Nat → Event
  | requestHost : Nat → Event
  | releaseHost : Nat → Nat → Event
  | denyHost : Nat → Nat → Event
  | giveUpHost : Nat → Event
  | modelTransform : Nat → Nat → Event
  | cameraUpdate : Nat → Nat → Event
  | productUploadComplete : Nat → Event
  | disconnect : Nat → Event
  | timerFire : Nat → Event
deriving DecidableEq, Repr

/-- One serialized dispatch of the coordinator: the handler for `e` runs to
completion, returning the new state and the messages emitted, in order. -/
def step (s : ServerState) (e : Event) : ServerState × List Output :=
  match e with
  | .registerHost sid =>
      -- lines 155-159: hostSocketId = socket.id; io.emit('host-changed', ...)
      ({ s with hostSocketId := some sid },
       [(Dest.all, Msg.hostChanged (some sid))])
  | .requestHost sid =>
      -- lines 161-179
      match s.hostSocketId with
      | none =>
          -- !hostSocketId: claim the role directly
          ({ s with hostSocketId := some sid },
           [(Dest.all, Msg.hostChanged (some sid))])
      | some host =>
          if host = sid then
            -- already the host: log only
            (s, [])
          else
            -- fresh requestId, start the 30s timeout, record the request,
            -- unicast host-transfer-request to the current host
            let requestId := s.nextId
            ({ s with
                pendingRequests := fun rid =>
                  if rid = requestId then some sid else s.pendingRequests rid
                nextId := s.nextId + 1 },
             [(Dest.to host, Msg.hostTransferRequest requestId sid)])
  | .releaseHost _sid requestId =>
      -- lines 181-190: guarded only by pendingRequests[requestId]
      match s.pendingRequests requestId with
      | some requester =>
          ({ s with
              hostSocketId := some requester
              pendingRequests := fun rid =>
                if rid = requestId then none else s.pendingRequests rid },
           [(Dest.all, Msg.hostChanged (some requester))])
      | none => (s, [])
  | .denyHost _sid requestId =>
      -- lines 192-200: guarded only by pendingRequests[requestId]
      match s.pendingRequests requestId with
      | some requester =>
          ({ s with
              pendingRequests := fun rid =>
                if rid = requestId then none else s.pendingRequests rid },
           [(Dest.to requester, Msg.transferDenied requestId)])
      | none => (s, [])
  | .giveUpHost sid =>
      -- lines 202-207
      if s.hostSocketId = some sid then
        ({ s with hostSocketId := none }, [(Dest.all, Msg.hostChanged none)])
      else
        (s, [])
  | .modelTransform sid payload =>
      -- lines 209-213: forwarded to all-but-sender iff sender is the host
      if s.hostSocketId = some sid then
        (s, [(Dest.allExcept sid, Msg.modelTransform payload)])
      else
        (s, [])
  | .cameraUpdate sid payload =>
      -- lines 215-219
      if s.hostSocketId = some sid then
        (s, [(Dest.allExcept sid, Msg.cameraUpdate payload)])
      else
        (s, [])
  | .productUploadComplete sid =>
      -- lines 223-237: flush the sender's buffer if non-empty
      let partsBuffer := s.hostUploadBuffers sid
      if partsBuffer.isEmpty then
        (s, [])
      else
        ({ s with
            hostUploadBuffers := fun uid =>
              if uid = sid then [] else s.hostUploadBuffers uid },
         [(Dest.all, Msg.productUploadComplete partsBuffer sid)])
  | .disconnect sid =>
      -- lines 239-250: clear the host role if the host left, then delete
      -- (clearing each timeout) every pending request this socket made
      let cleaned : Nat → Option Nat := fun rid =>
        match s.pendingRequests rid with
        | some requester => if requester = sid then none else some requester
        | none => none
      if s.hostSocketId = some sid then
        ({ s with hostSocketId := none, pendingRequests := cleaned },
         [(Dest.all, Msg.hostChanged none)])
      else
        ({ s with pendingRequests := cleaned }, [])
  | .timerFire requestId =>
      -- lines 170-175: the setTimeout callback.  Its handle is cleared in
      -- every path that deletes pendingRequests[requestId], so it can only
      -- run while the entry is still present; a fire after deletion cannot
      -- happen and is embedded as a no-op.  While present, the stored
      -- requester equals the socket.id captured by the closure.
      match s.pendingRequests requestId with
      | some requester =>
          ({ s with
              hostSocketId := some requester
              pendingRequests := fun rid =>
                if rid = requestId then none else s.pendingRequests rid },
           [(Dest.all, Msg.hostChanged (some requester))])
      | none => (s, [])

/-- Result of `POST /upload` (server.js lines 117-149): either the 400
`No file uploaded` error or the `{ url, name }` success body. -/
inductive UploadResponse where
  | badRequest : UploadResponse
  | ok : String → String → UploadResponse
deriving DecidableEq, Repr

/-- The public URL built for an uploaded file (server.js line 126). -/
def fileUrlOf (baseUrl filename : String) : String :=
  baseUrl ++ "/uploads/" ++ filename

/-- The `POST /upload` handler (server.js lines 117-149).  `uploaderId` and
`role` come from the `x-socket-id` / `x-uploader-role` headers (an absent or
empty `x-socket-id` is `none`; an absent role header defaults to
`"viewer"` before this function is reached).  The file is staged into the
uploader's buffer only when `role = "host"` and the socket id is present;
the `{url, name}` response is returned to the caller either way. -/
def uploadPost (baseUrl : String) (s : ServerState) (uploaderId : Option Nat)
    (role : String) (file : Option String) : ServerState × UploadResponse :=
  match file with
  | none => (s, UploadResponse.badRequest)
  | some filename =>
      let fileUrl := fileUrlOf baseUrl filename
      match uploaderId with
      | some uid =>
          if role = "host" then
            ({ s with
                hostUploadBuffers := fun u =>
                  if u = uid then
                    s.hostUploadBuffers uid ++
                      [{ url := fileUrl, name := filename, id := s.nextId,
                         sender := uid }]
                  else s.hostUploadBuffers u
                nextId := s.nextId + 1 },
             UploadResponse.ok fileUrl filename)
          else
            (s, UploadResponse.ok fileUrl filename)
      | none => (s, UploadResponse.ok fileUrl filename)

/-- Modelled from the spec: the server-side relay for the annotation
pointer is missing from src/server.js (only the client-side emitters in
public/js/uiControls.js line 306 and public/js/app.js line 1796 and the
client-side listeners at app.js lines 1417-1449 are in the repository).
Spec section 6 lists `hostPointerToggle {active}` and `hostPointerUpdate
{position}` as "annotation pointer broadcast, host-gated", in the same
C to S forwarded-if-sender-is-host family as cameraUpdate/modelTransform
("mirrored to all-but-sender"): if the sender is the current host the
payload is broadcast to the other clients, otherwise nothing is emitted. -/
def pointerStep (s : ServerState) (sid : Nat) (m : Msg) : ServerState × List Output :=
  if s.hostSocketId = some sid then
    (s, [(Dest.allExcept sid, m)])
  else
    (s, [])

/-- An event of the combined trace semantics: a socket event, or an HTTP
`POST /upload` carrying the uploader's socket id, role header and file. -/
inductive TraceEvent where
  | sock : Event → TraceEvent
  | http : Option Nat → String → Option String → TraceEvent
deriving DecidableEq, Repr

/-- One trace event applied to the state.  An HTTP upload emits no socket
message (its `{url, name}` body goes only to the HTTP caller). -/
def traceStep (baseUrl : String) (s : ServerState) (e : TraceEvent) :
    ServerState × List Output :=
  match e with
  | .sock ev => step s ev
  | .http uploaderId role file =>
      ((uploadPost baseUrl s uploaderId role file).1, [])

/-- All socket messages emitted while serially processing a trace. -/
def runOutputs (baseUrl : String) (s : ServerState) :
    List TraceEvent → List Output
  | [] => []
  | e :: rest =>
      (traceStep baseUrl s e).2 ++ runOutputs baseUrl (traceStep baseUrl s e).1 rest

/-- The state after host `h` uploads file `na` and then file `nb`, both with
the host role header (two consecutive `POST /upload` requests). -/
def uploadTwice (baseUrl : String) (s : ServerState) (h : Nat)
    (na nb : String) : ServerState :=
  (uploadPost baseUrl
    (uploadPost baseUrl s (some h) "host" (some na)).1
    (some h) "host" (some nb)).1

/-- A concrete coordinator state used to exercise the theorems: client 0 is
the current host, a transfer request with id 5 from client 1 is pending, and
the next generated id is 6. -/
def exState : ServerState :=
  { hostSocketId := some 0
    pendingRequests := fun rid => if rid = 5 then some 1 else none
    hostUploadBuffers := fun _ => []
    nextId := 6 }

/-- A concrete trace: client 7 uploads `a.glb` with the host role header and
then signals completion. -/
def exTrace : List TraceEvent :=
  [TraceEvent.http (some 7) "host" (some "a.glb"),
   TraceEvent.sock (Event.productUploadComplete 7)]

/-- The part staged by the upload in `exTrace` (base URL `http://h`). -/
def exPart : Part :=
  { url := "http://h/uploads/a.glb", name := "a.glb", id := 0, sender := 7 }

/-- Freshness of the id generator: every id at or above `nextId` is unused
by the pending-request map, so each newly generated request id is new.
This is the embedded counterpart of `uuidv4()` never colliding. -/
def FreshIds (s : ServerState) : Prop :=
  ∀ rid, s.nextId ≤ rid → s.pendingRequests rid = none

/-- The state reached after serially processing a trace. -/
def runState (baseUrl : String) (s : ServerState) : List TraceEvent → ServerState
  | [] => s
  | e :: rest => runState baseUrl (traceStep baseUrl s e).1 rest

/-- Claim C1: accept (release-host), deny (deny-host) and expiry timeout are
mutually exclusive terminal outcomes of a TransferRequest: whichever of the
three runs first deletes the request (cancelling its timer, which in this
embedding is identified with the entry itself), and on any state in which
the request is gone each of the three is a no-op that neither changes the
state nor emits a message. -/
theorem C1_terminal_outcomes_exclusive
    (s : ServerState) (rid requester sender sender2 : Nat)
    (h : s.pendingRequests rid = some requester) :
    ((step s (Event.releaseHost sender rid)).1.pendingRequests rid = none ∧
     (step s (Event.denyHost sender rid)).1.pendingRequests rid = none ∧
     (step s (Event.timerFire rid)).1.pendingRequests rid = none) ∧
    (∀ t : ServerState, t.pendingRequests rid = none →
      step t (Event.releaseHost sender2 rid) = (t, []) ∧
      step t (Event.denyHost sender2 rid) = (t, []) ∧
      step t (Event.timerFire rid) = (t, [])) := by
  refine ⟨⟨?_, ?_, ?_⟩, fun t ht => ⟨?_, ?_, ?_⟩⟩ <;> simp [step, h, *]

/-- Witness for C1 at the concrete state `exState` (request 5 by client 1
is pending). -/
theorem C1_terminal_outcomes_exclusive_witness :
    exState.pendingRequests 5 = some 1 ∧
    (((step exState (Event.releaseHost 0 5)).1.pendingRequests 5 = none ∧
      (step exState (Event.denyHost 0 5)).1.pendingRequests 5 = none ∧
      (step exState (Event.timerFire 5)).1.pendingRequests 5 = none) ∧
     (∀ t : ServerState, t.pendingRequests 5 = none →
       step t (Event.releaseHost 0 5) = (t, []) ∧
       step t (Event.denyHost 0 5) = (t, []) ∧
       step t (Event.timerFire 5) = (t, []))) :=
  ⟨rfl, C1_terminal_outcomes_exclusive exState 5 1 0 0 rfl⟩

/-- Counterexample to claim C2: in `exState` client 0 is the host and
request 5 from client 1 is pending, yet a release-host sent by client 2
(neither the host nor the requester) transfers the role and broadcasts,
instead of leaving the state unchanged and emitting nothing. -/
theorem C2_counterexample :
    exState.hostSocketId = some 0 ∧ (2 : Nat) ≠ 0 ∧
    exState.pendingRequests 5 = some 1 ∧
    (step exState (Event.releaseHost 2 5)).1.hostSocketId = some 1 ∧
    (step exState (Event.releaseHost 2 5)).1.pendingRequests 5 = none ∧
    (step exState (Event.releaseHost 2 5)).2 =
      [(Dest.all, Msg.hostChanged (some 1))] := by
  decide

/-- Claim C2 amended: release-host and deny-host naming a live
TransferRequest are acted on whatever connection sends them — the sender is
never compared against hostSocketId.  Release transfers the role to the
stored requester and broadcasts hostChanged; deny leaves hostId unchanged
and unicasts transferDenied to the requester; both delete the request. -/
theorem C2_amended_sender_not_checked
    (s : ServerState) (sender rid requester : Nat)
    (h : s.pendingRequests rid = some requester) :
    ((step s (Event.releaseHost sender rid)).1.hostSocketId = some requester ∧
     (step s (Event.releaseHost sender rid)).1.pendingRequests rid = none ∧
     (step s (Event.releaseHost sender rid)).2 =
       [(Dest.all, Msg.hostChanged (some requester))]) ∧
    ((step s (Event.denyHost sender rid)).1.hostSocketId = s.hostSocketId ∧
     (step s (Event.denyHost sender rid)).1.pendingRequests rid = none ∧
     (step s (Event.denyHost sender rid)).2 =
       [(Dest.to requester, Msg.transferDenied rid)]) := by
  refine ⟨⟨?_, ?_, ?_⟩, ?_, ?_, ?_⟩ <;> simp [step, h]

/-- Witness for the amended C2: client 2 resolves request 5 in `exState`. -/
theorem C2_amended_sender_not_checked_witness :
    exState.pendingRequests 5 = some 1 ∧
    (((step exState (Event.releaseHost 2 5)).1.hostSocketId = some 1 ∧
      (step exState (Event.releaseHost 2 5)).1.pendingRequests 5 = none ∧
      (step exState (Event.releaseHost 2 5)).2 =
        [(Dest.all, Msg.hostChanged (some 1))]) ∧
     ((step exState (Event.denyHost 2 5)).1.hostSocketId = exState.hostSocketId ∧
      (step exState (Event.denyHost 2 5)).1.pendingRequests 5 = none ∧
      (step exState (Event.denyHost 2 5)).2 =
        [(Dest.to 1, Msg.transferDenied 5)])) :=
  ⟨rfl, C2_amended_sender_not_checked exState 2 5 1 rfl⟩

/-- Counterexample to claim C3: in `exState` the host (client 0) disconnects
while request 5 from client 1 is pending; hostId does become none, but the
request survives and its timer fire afterwards still changes hostId to
client 1 — the request is not unresolvable. -/
theorem C3_counterexample :
    exState.hostSocketId = some 0 ∧
    exState.pendingRequests 5 = some 1 ∧
    (step exState (Event.disconnect 0)).1.hostSocketId = none ∧
    (step exState (Event.disconnect 0)).1.pendingRequests 5 = some 1 ∧
    (step (step exState (Event.disconnect 0)).1 (Event.timerFire 5)).1.hostSocketId
      = some 1 ∧
    (step (step exState (Event.disconnect 0)).1 (Event.timerFire 5)).2 =
      [(Dest.all, Msg.hostChanged (some 1))] := by
  decide

/-- Claim C3 amended: when the host disconnects, hostId becomes none and
hostChanged(none) is broadcast to all, and no pending request addressed to
that host is removed (only requests whose requester is the leaver are);
such a request remains live and still changes hostId when its timer fires.
The coordinator never crashes: every handler is a total function. -/
theorem C3_amended_host_disconnect
    (s : ServerState) (h rid r : Nat)
    (hh : s.hostSocketId = some h) (hr : s.pendingRequests rid = some r)
    (hne : r ≠ h) :
    (step s (Event.disconnect h)).1.hostSocketId = none ∧
    (step s (Event.disconnect h)).2 = [(Dest.all, Msg.hostChanged none)] ∧
    (step s (Event.disconnect h)).1.pendingRequests rid = some r ∧
    (step (step s (Event.disconnect h)).1 (Event.timerFire rid)).1.hostSocketId
      = some r ∧
    (step (step s (Event.disconnect h)).1 (Event.timerFire rid)).2 =
      [(Dest.all, Msg.hostChanged (some r))] := by
  refine ⟨?_, ?_, ?_, ?_, ?_⟩ <;> simp [step, hh, hr, hne]

/-- Witness for the amended C3 at `exState`. -/
theorem C3_amended_host_disconnect_witness :
    exState.hostSocketId = some 0 ∧ exState.pendingRequests 5 = some 1 ∧
    (1 : Nat) ≠ 0 ∧
    ((step exState (Event.disconnect 0)).1.hostSocketId = none ∧
     (step exState (Event.disconnect 0)).2 = [(Dest.all, Msg.hostChanged none)] ∧
     (step exState (Event.disconnect 0)).1.pendingRequests 5 = some 1 ∧
     (step (step exState (Event.disconnect 0)).1 (Event.timerFire 5)).1.hostSocketId
       = some 1 ∧
     (step (step exState (Event.disconnect 0)).1 (Event.timerFire 5)).2 =
       [(Dest.all, Msg.hostChanged (some 1))]) :=
  ⟨rfl, rfl, by decide,
   C3_amended_host_disconnect exState 0 5 1 rfl rfl (by decide)⟩

/-- Claim C4: if a pending request is still live when its expiry fires, the
firing sets hostId to the requester, emits exactly one broadcast
(hostChanged to all clients) and deletes the request. -/
theorem C4_expiry_auto_transfer (s : ServerState) (rid r : Nat)
    (h : s.pendingRequests rid = some r) :
    (step s (Event.timerFire rid)).1.hostSocketId = some r ∧
    (step s (Event.timerFire rid)).2 = [(Dest.all, Msg.hostChanged (some r))] ∧
    (step s (Event.timerFire rid)).1.pendingRequests rid = none := by
  refine ⟨?_, ?_, ?_⟩ <;> simp [step, h]

/-- Witness for C4: the timer of request 5 fires in `exState`. -/
theorem C4_expiry_auto_transfer_witness :
    exState.pendingRequests 5 = some 1 ∧
    ((step exState (Event.timerFire 5)).1.hostSocketId = some 1 ∧
     (step exState (Event.timerFire 5)).2 = [(Dest.all, Msg.hostChanged (some 1))] ∧
     (step exState (Event.timerFire 5)).1.pendingRequests 5 = none) :=
  ⟨rfl, C4_expiry_auto_transfer exState 5 1 rfl⟩

/-- Claim C5: when the requester of a pending request disconnects, the
request is deleted (its timer cleared), and a subsequent fire of that timer
leaves the state unchanged and emits nothing — no late hostChanged. -/
theorem C5_requester_disconnect_cancels_timer (s : ServerState) (rid r : Nat)
    (h : s.pendingRequests rid = some r) :
    (step s (Event.disconnect r)).1.pendingRequests rid = none ∧
    step (step s (Event.disconnect r)).1 (Event.timerFire rid) =
      ((step s (Event.disconnect r)).1, []) := by
  by_cases hh : s.hostSocketId = some r <;>
    refine ⟨?_, ?_⟩ <;> simp [step, h, hh]

/-- Witness for C5: requester 1 of request 5 disconnects in `exState`. -/
theorem C5_requester_disconnect_cancels_timer_witness :
    exState.pendingRequests 5 = some 1 ∧
    ((step exState (Event.disconnect 1)).1.pendingRequests 5 = none ∧
     step (step exState (Event.disconnect 1)).1 (Event.timerFire 5) =
       ((step exState (Event.disconnect 1)).1, [])) :=
  ⟨rfl, C5_requester_disconnect_cancels_timer exState 5 1 rfl⟩

/-- Claim C6: a requestHost from client c while some other client is host
creates exactly one new TransferRequest — at the fresh id `s.nextId`, with
requester c, every other id unchanged — unicasts hostTransferRequest with
that id and requester to the host's connection only, and leaves hostId
unchanged. -/
theorem C6_request_while_owned (s : ServerState) (c other : Nat)
    (hh : s.hostSocketId = some other) (hne : other ≠ c)
    (hfresh : s.pendingRequests s.nextId = none) :
    s.pendingRequests s.nextId = none ∧
    (step s (Event.requestHost c)).2 =
      [(Dest.to other, Msg.hostTransferRequest s.nextId c)] ∧
    (step s (Event.requestHost c)).1.hostSocketId = some other ∧
    (step s (Event.requestHost c)).1.pendingRequests s.nextId = some c ∧
    ∀ rid, rid ≠ s.nextId →
      (step s (Event.requestHost c)).1.pendingRequests rid = s.pendingRequests rid := by
  refine ⟨hfresh, ?_, ?_, ?_, fun rid hrid => ?_⟩ <;> simp [step, hh, hne, *]

/-- Witness for C6: client 2 requests the role in `exState` (host 0). -/
theorem C6_request_while_owned_witness :
    exState.hostSocketId = some 0 ∧ (0 : Nat) ≠ 2 ∧
    exState.pendingRequests exState.nextId = none ∧
    (exState.pendingRequests exState.nextId = none ∧
     (step exState (Event.requestHost 2)).2 =
       [(Dest.to 0, Msg.hostTransferRequest exState.nextId 2)] ∧
     (step exState (Event.requestHost 2)).1.hostSocketId = some 0 ∧
     (step exState (Event.requestHost 2)).1.pendingRequests exState.nextId = some 2 ∧
     ∀ rid, rid ≠ exState.nextId →
       (step exState (Event.requestHost 2)).1.pendingRequests rid =
         exState.pendingRequests rid) :=
  ⟨rfl, by decide, rfl, C6_request_while_owned exState 2 0 rfl (by decide) rfl⟩

/-- Claim C9: the annotation-pointer relay (modelled from the spec, see
`pointerStep`) broadcasts hostPointerToggle and hostPointerUpdate to the
other clients when the sender is the current host, and drops them — no
state change, no message — when the sender is not the host. -/
theorem C9_pointer_relay_host_gated (s : ServerState) (sid other : Nat)
    (active : Bool) (pos : Nat)
    (hh : s.hostSocketId = some sid) (hno : other ≠ sid) :
    pointerStep s sid (Msg.hostPointerToggle active) =
      (s, [(Dest.allExcept sid, Msg.hostPointerToggle active)]) ∧
    pointerStep s sid (Msg.hostPointerUpdate pos) =
      (s, [(Dest.allExcept sid, Msg.hostPointerUpdate pos)]) ∧
    pointerStep s other (Msg.hostPointerToggle active) = (s, []) ∧
    pointerStep s other (Msg.hostPointerUpdate pos) = (s, []) := by
  refine ⟨?_, ?_, ?_, ?_⟩ <;> simp [pointerStep, hh, Ne.symm hno]

/-- Witness for C9: host 0 and non-host 2 send pointer messages in
`exState`. -/
theorem C9_pointer_relay_host_gated_witness :
    exState.hostSocketId = some 0 ∧ (2 : Nat) ≠ 0 ∧
    (pointerStep exState 0 (Msg.hostPointerToggle true) =
       (exState, [(Dest.allExcept 0, Msg.hostPointerToggle true)]) ∧
     pointerStep exState 0 (Msg.hostPointerUpdate 4) =
       (exState, [(Dest.allExcept 0, Msg.hostPointerUpdate 4)]) ∧
     pointerStep exState 2 (Msg.hostPointerToggle true) = (exState, []) ∧
     pointerStep exState 2 (Msg.hostPointerUpdate 4) = (exState, [])) :=
  ⟨rfl, by decide, C9_pointer_relay_host_gated exState 0 2 true 4 rfl (by decide)⟩

/-- Claim C10: registerHost installs the new host but leaves the pending
request map exactly as it was — nothing is deleted and no timer is
cancelled — so the timer of a request created against an earlier host still
fires, reassigning hostId to that requester and ousting the registered
host. -/
theorem C10_registerHost_frame (s : ServerState) (newHost rid r : Nat)
    (h : s.pendingRequests rid = some r) :
    (step s (Event.registerHost newHost)).1.pendingRequests = s.pendingRequests ∧
    (step s (Event.registerHost newHost)).1.hostSocketId = some newHost ∧
    (step (step s (Event.registerHost newHost)).1 (Event.timerFire rid)).1.hostSocketId
      = some r ∧
    (step (step s (Event.registerHost newHost)).1 (Event.timerFire rid)).2 =
      [(Dest.all, Msg.hostChanged (some r))] := by
  refine ⟨?_, ?_, ?_, ?_⟩ <;> simp [step, h]

/-- Witness for C10: client 3 registers over host 0 in `exState`, then the
timer of request 5 fires. -/
theorem C10_registerHost_frame_witness :
    exState.pendingRequests 5 = some 1 ∧
    ((step exState (Event.registerHost 3)).1.pendingRequests = exState.pendingRequests ∧
     (step exState (Event.registerHost 3)).1.hostSocketId = some 3 ∧
     (step (step exState (Event.registerHost 3)).1 (Event.timerFire 5)).1.hostSocketId
       = some 1 ∧
     (step (step exState (Event.registerHost 3)).1 (Event.timerFire 5)).2 =
       [(Dest.all, Msg.hostChanged (some 1))]) :=
  ⟨rfl, C10_registerHost_frame exState 3 5 1 rfl⟩

/-- Claim C7: starting from an empty batch, host h uploads part A then part
B and signals completion: productUploadComplete is emitted exactly once, to
all clients (the uploader included), with sender h and the parts [A, B] in
arrival order; the batch is empty afterwards; and a second completion with
no new uploads is a silent no-op that changes nothing and emits nothing. -/
theorem C7_upload_batch (base : String) (s : ServerState) (h : Nat)
    (na nb : String) (hbuf : s.hostUploadBuffers h = []) :
    (step (uploadTwice base s h na nb) (Event.productUploadComplete h)).2 =
      [(Dest.all, Msg.productUploadComplete
        [{ url := fileUrlOf base na, name := na, id := s.nextId, sender := h },
         { url := fileUrlOf base nb, name := nb, id := s.nextId + 1, sender := h }]
        h)] ∧
    (step (uploadTwice base s h na nb)
        (Event.productUploadComplete h)).1.hostUploadBuffers h = [] ∧
    step (step (uploadTwice base s h na nb) (Event.productUploadComplete h)).1
        (Event.productUploadComplete h) =
      ((step (uploadTwice base s h na nb) (Event.productUploadComplete h)).1, []) := by
  refine ⟨?_, ?_, ?_⟩ <;> simp [uploadTwice, uploadPost, step, hbuf]

/-- Witness for C7: client 7 uploads `a.glb` and `b.glb` from the initial
state and completes twice. -/
theorem C7_upload_batch_witness :
    initState.hostUploadBuffers 7 = [] ∧
    ((step (uploadTwice "http://h" initState 7 "a.glb" "b.glb")
        (Event.productUploadComplete 7)).2 =
       [(Dest.all, Msg.productUploadComplete
         [{ url := fileUrlOf "http://h" "a.glb", name := "a.glb",
            id := initState.nextId, sender := 7 },
          { url := fileUrlOf "http://h" "b.glb", name := "b.glb",
            id := initState.nextId + 1, sender := 7 }] 7)] ∧
     (step (uploadTwice "http://h" initState 7 "a.glb" "b.glb")
         (Event.productUploadComplete 7)).1.hostUploadBuffers 7 = [] ∧
     step (step (uploadTwice "http://h" initState 7 "a.glb" "b.glb")
           (Event.productUploadComplete 7)).1 (Event.productUploadComplete 7) =
       ((step (uploadTwice "http://h" initState 7 "a.glb" "b.glb")
           (Event.productUploadComplete 7)).1, [])) :=
  ⟨rfl, C7_upload_batch "http://h" initState 7 "a.glb" "b.glb" rfl⟩

/-- No socket event ever adds to an upload buffer: a part buffered after a
socket event was already buffered before it. -/
theorem step_buffer_mem (s : ServerState) (e : Event) (uid : Nat) (p : Part)
    (hp : p ∈ (step s e).1.hostUploadBuffers uid) :
    p ∈ s.hostUploadBuffers uid := by
  cases e <;> simp only [step] at hp <;> (repeat' split at hp) <;> simp_all

/-- The only socket output carrying a productUploadComplete message is the
flush of the sending client's buffer: it goes to all clients and its parts
list is exactly that buffer. -/
theorem step_flush_output (s : ServerState) (e : Event) (d : Dest)
    (parts : List Part) (sender : Nat)
    (hmem : (d, Msg.productUploadComplete parts sender) ∈ (step s e).2) :
    d = Dest.all ∧ parts = s.hostUploadBuffers sender := by
  cases e <;> simp only [step] at hmem <;> (repeat' split at hmem) <;> simp_all

/-- A part buffered after a `POST /upload` was either buffered before it, or
is the freshly staged descriptor of a host-role upload. -/
theorem uploadPost_buffer_mem (base : String) (s : ServerState)
    (uploaderId : Option Nat) (role : String) (file : Option String)
    (uid : Nat) (p : Part)
    (hp : p ∈ (uploadPost base s uploaderId role file).1.hostUploadBuffers uid) :
    p ∈ s.hostUploadBuffers uid ∨
      ∃ name, file = some name ∧ uploaderId = some uid ∧ role = "host" ∧
        p = { url := fileUrlOf base name, name := name, id := s.nextId,
              sender := uid } := by
  rcases file with _ | name
  · exact Or.inl hp
  rcases uploaderId with _ | u
  · exact Or.inl hp
  by_cases hr : role = "host"
  · subst hr
    by_cases hu : uid = u
    · subst hu
      simp [uploadPost] at hp
      rcases hp with hp | hp
      · exact Or.inl hp
      · exact Or.inr ⟨name, rfl, rfl, rfl, hp⟩
    · simp [uploadPost, hu] at hp
      exact Or.inl hp
  · simp [uploadPost, hr] at hp
    exact Or.inl hp

/-- Every part carried by a productUploadComplete broadcast of a trace
satisfies any predicate that holds of all initially buffered parts and of
every descriptor a host-role upload of the trace could stage. -/
theorem runOutputs_flush_parts (base : String) (Q : Part → Prop) :
    ∀ (tr : List TraceEvent) (s : ServerState),
      (∀ uid p, p ∈ s.hostUploadBuffers uid → Q p) →
      (∀ uid name i, TraceEvent.http (some uid) "host" (some name) ∈ tr →
        Q { url := fileUrlOf base name, name := name, id := i, sender := uid }) →
      ∀ d parts sender,
        (d, Msg.productUploadComplete parts sender) ∈ runOutputs base s tr →
        ∀ p ∈ parts, Q p := by
  intro tr
  induction tr with
  | nil =>
      intro s hbuf hup d parts sender hmem
      simp [runOutputs] at hmem
  | cons e rest ih =>
      intro s hbuf hup d parts sender hmem p hp
      rw [runOutputs] at hmem
      rcases List.mem_append.mp hmem with hmem2 | hmem2
      · cases e with
        | sock ev =>
            have hflush := step_flush_output s ev d parts sender hmem2
            exact hbuf sender p (hflush.2 ▸ hp)
        | http upId role file => simp [traceStep] at hmem2
      · refine ih (traceStep base s e).1 ?_
          (fun uid name i hm => hup uid name i (List.mem_cons_of_mem _ hm))
          d parts sender hmem2 p hp
        intro uid q hq
        cases e with
        | sock ev => exact hbuf uid q (step_buffer_mem s ev uid q hq)
        | http upId role file =>
            rcases uploadPost_buffer_mem base s upId role file uid q hq with
              hq2 | ⟨name, hf, hu, hr2, hq2⟩
            · exact hbuf uid q hq2
            · subst hf; subst hu; subst hr2; subst hq2
              exact hup uid name s.nextId (List.mem_cons_self _ _)

/-- Claim C8: in any trace of HTTP uploads and socket events started from
the initial state, every part carried by a productUploadComplete broadcast
comes from a host-role upload in that trace (of the same file name, by the
same socket id) — so a file uploaded with a non-host role never appears in
any broadcast; moreover a non-host upload only returns its URL and leaves
the server state, its batches included, entirely unchanged. -/
theorem C8_viewer_uploads_never_broadcast (base : String) (tr : List TraceEvent)
    (d : Dest) (parts : List Part) (sender : Nat) (p : Part)
    (hmem : (d, Msg.productUploadComplete parts sender) ∈ runOutputs base initState tr)
    (hp : p ∈ parts) :
    TraceEvent.http (some p.sender) "host" (some p.name) ∈ tr ∧
    ∀ (t : ServerState) (uploaderId : Option Nat) (role : String) (name : String),
      role ≠ "host" →
      uploadPost base t uploaderId role (some name) =
        (t, UploadResponse.ok (fileUrlOf base name) name) := by
  constructor
  · exact runOutputs_flush_parts base
      (fun q => TraceEvent.http (some q.sender) "host" (some q.name) ∈ tr)
      tr initState (fun uid q hq => by simp [initState] at hq)
      (fun uid name i hm => hm) d parts sender hmem p hp
  · intro t upId role name hr
    rcases upId with _ | u
    · rfl
    · simp [uploadPost, hr]

/-- Witness for C8: the trace `exTrace` broadcasts the single part `exPart`,
which indeed stems from the host-role upload in that trace. -/
theorem C8_viewer_uploads_never_broadcast_witness :
    ((Dest.all, Msg.productUploadComplete [exPart] 7) ∈
       runOutputs "http://h" initState exTrace) ∧
    exPart ∈ [exPart] ∧
    (TraceEvent.http (some exPart.sender) "host" (some exPart.name) ∈ exTrace ∧
     ∀ (t : ServerState) (uploaderId : Option Nat) (role : String) (name : String),
       role ≠ "host" →
       uploadPost "http://h" t uploaderId role (some name) =
         (t, UploadResponse.ok (fileUrlOf "http://h" name) name)) :=
  ⟨by decide, by decide,
   C8_viewer_uploads_never_broadcast "http://h" exTrace Dest.all [exPart] 7 exPart
     (by decide) (by decide)⟩

/-- The initial state generates only fresh ids. -/
theorem freshIds_initState : FreshIds initState := fun _ _ => rfl

/-- Every socket event preserves id freshness. -/
theorem freshIds_step (s : ServerState) (e : Event) (h : FreshIds s) :
    FreshIds (step s e).1 := by
  cases e with
  | registerHost sid => exact h
  | requestHost sid =>
      rcases hh : s.hostSocketId with _ | host
      · intro rid hrid
        simp only [step, hh] at hrid ⊢
        exact h rid hrid
      · by_cases he : host = sid
        · intro rid hrid
          simp only [step, hh, if_pos he] at hrid ⊢
          exact h rid hrid
        · intro rid hrid
          simp only [step, hh, if_neg he] at hrid ⊢
          rw [if_neg (by omega : ¬ rid = s.nextId)]
          exact h rid (by omega)
  | releaseHost sender requestId =>
      rcases hq : s.pendingRequests requestId with _ | r <;> intro rid hrid <;>
        simp only [step, hq] at hrid ⊢
      · exact h rid hrid
      · rcases eq_or_ne rid requestId with he | he
        · rw [if_pos he]
        · rw [if_neg he]; exact h rid hrid
  | denyHost sender requestId =>
      rcases hq : s.pendingRequests requestId with _ | r <;> intro rid hrid <;>
        simp only [step, hq] at hrid ⊢
      · exact h rid hrid
      · rcases eq_or_ne rid requestId with he | he
        · rw [if_pos he]
        · rw [if_neg he]; exact h rid hrid
  | giveUpHost sid =>
      by_cases hc : s.hostSocketId = some sid <;> intro rid hrid <;>
        simp [step, hc] at hrid ⊢ <;> exact h rid hrid
  | modelTransform sid payload =>
      by_cases hc : s.hostSocketId = some sid <;> intro rid hrid <;>
        simp [step, hc] at hrid ⊢ <;> exact h rid hrid
  | cameraUpdate sid payload =>
      by_cases hc : s.hostSocketId = some sid <;> intro rid hrid <;>
        simp [step, hc] at hrid ⊢ <;> exact h rid hrid
  | productUploadComplete sid =>
      by_cases hbe : (s.hostUploadBuffers sid).isEmpty <;> intro rid hrid <;>
        simp [step, hbe] at hrid ⊢ <;> exact h rid hrid
  | disconnect sid =>
      by_cases hc : s.hostSocketId = some sid <;> intro rid hrid <;>
        simp [step, hc] at hrid ⊢ <;> simp [h rid hrid]
  | timerFire requestId =>
      rcases hq : s.pendingRequests requestId with _ | r <;> intro rid hrid <;>
        simp only [step, hq] at hrid ⊢
      · exact h rid hrid
      · rcases eq_or_ne rid requestId with he | he
        · rw [if_pos he]
        · rw [if_neg he]; exact h rid hrid

/-- Every HTTP upload preserves id freshness. -/
theorem freshIds_uploadPost (base : String) (s : ServerState)
    (uploaderId : Option Nat) (role : String) (file : Option String)
    (h : FreshIds s) : FreshIds (uploadPost base s uploaderId role file).1 := by
  rcases file with _ | name
  · exact h
  rcases uploaderId with _ | u
  · exact h
  by_cases hr : role = "host"
  · intro rid hrid
    simp only [uploadPost, if_pos hr] at hrid ⊢
    exact h rid (by omega)
  · intro rid hrid
    simp only [uploadPost, if_neg hr] at hrid ⊢
    exact h rid hrid

/-- Id freshness holds in every state reachable from the initial one, so
the hypothesis of `C6_request_while_owned` is met along every real run. -/
theorem freshIds_runState (base : String) (tr : List TraceEvent) :
    ∀ s, FreshIds s → FreshIds (runState base s tr) := by
  induction tr with
  | nil => exact fun s h => h
  | cons e rest ih =>
      intro s h
      rw [runState]
      refine ih _ ?_
      cases e with
      | sock ev => exact freshIds_step s ev h
      | http uid role file => exact freshIds_uploadPost base s uid role file h

end MPV
